import Mathlib

/-!
Shallow embedding of `evennia/server/portal/amp_server.py`: the Portal-side
AMP server protocol.  The Python class state is flattened into one record
(`AmpState`), external effects (subprocess spawns, messages sent to the
Server, portal shutdown, log calls) are collected in an effect trace, and the
subprocess-launch facility (`Popen`) is passed in as an oracle
`spawn : List String → Except String Nat` (an `.error` models the raised
exception, an `.ok pid` a successful launch).  Python exceptions that escape
a handler are modelled with `Except PyErr`.
-/

namespace AmpServer

/-! Operation byte codes.  The numeric values of `SSTART`, `SRELOAD`,
`SRESET`, `SSHUTD` and `PSHUTD` come from the `#15`, `#14`, `#19`, `#17`,
`#16` comments in `portal_receive_launcher2portal`; the codes used only by
the Server-facing handler live in `evennia/server/portal/amp.py` (not part of
the sources here): they are modelled as arbitrary pairwise-distinct bytes,
and no claim depends on their concrete values. -/

def SSTART : Nat := 15
def SRELOAD : Nat := 14
def SRESET : Nat := 19
def SSHUTD : Nat := 17
def PSHUTD : Nat := 16
def SLOGIN : Nat := 1
def SDISCONN : Nat := 2
def SDISCONNALL : Nat := 3
def PSYNC : Nat := 11
def SSYNC : Nat := 12
def SCONN : Nat := 13

/-- External effects performed by the protocol code, in order. -/
inductive Effect where
  /-- `Popen` succeeded: a Server subprocess was spawned with this command
  and got this pid. -/
  | spawned (cmd : List String) (pid : Nat)
  /-- `send_AdminPortal2Server(DUMMYSESSION, operation=op)`: an admin notice
  sent to the connected Server. -/
  | admin_portal2server (op : Nat)
  /-- `self.factory.portal.shutdown(restart=...)`. -/
  | portal_shutdown (restart : Bool)
  /-- `logger.log_trace()`. -/
  | log_trace
  /-- `logger.log_server(...)`: early subprocess stdout forwarded. -/
  | log_server
  /-- `logger.log_msg(text)`. -/
  | log_msg (text : String)
  /-- A call into the external session registry
  (`self.factory.portal.sessions.<method>`). -/
  | sessions_call (method : String)
  deriving DecidableEq, Repr

/-- A disconnect callback stored in `factory.disconnect_callbacks`: the
callable together with its captured arguments.  The two closures the source
actually registers are `(self.start_server, server_twistd_cmd)` and
`(self.factory.portal.shutdown, restart=False)`; `raw_act` stands for an
arbitrary other callback, recorded by its outcome (`none`: it returns
normally; `some e`: it raises an exception with message `e`). -/
inductive DCAction where
  | start_server_act (cmd : List String)
  | portal_shutdown_act (restart : Bool)
  | raw_act (raises : Option String)
  deriving DecidableEq, Repr

/-- Portal/factory state touched by this file, flattened:
`factory.server_connection`, `factory.disconnect_callbacks` (a dict keyed by
the protocol object, modelled by a connection id `Nat`),
`portal.server_process_id`, `portal.server_twistd_cmd` and
`factory.server_restart_mode`. -/
structure AmpState where
  server_connection : Option Nat
  disconnect_callbacks : List (Nat × DCAction)
  server_process_id : Option Nat
  server_twistd_cmd : List String
  server_restart_mode : Bool
  deriving DecidableEq, Repr

/-- Python exceptions escaping a responder. -/
inductive PyErr where
  /-- `UnboundLocalError`: a local variable referenced before assignment. -/
  | unbound_local (name : String)
  /-- `raise Exception("operation ... not recognized.")`. -/
  | unrecognized (op : Nat)
  deriving DecidableEq, Repr

/-- Lookup in the `disconnect_callbacks` dict. -/
def lookupCb (c : Nat) : List (Nat × DCAction) → Option DCAction
  | [] => none
  | (k, a) :: rest => if k = c then some a else lookupCb c rest

/-- Removal of a key from the `disconnect_callbacks` dict (the effect of
`dict.pop`, and of overwriting on assignment). -/
def removeCb (c : Nat) : List (Nat × DCAction) → List (Nat × DCAction)
  | [] => []
  | (k, a) :: rest => if k = c then removeCb c rest else (k, a) :: removeCb c rest

/-- Dict assignment `self.factory.disconnect_callbacks[self] = (callback, args, kwargs)`:
overwrites any previous entry for the same key. -/
def setCb (c : Nat) (a : DCAction) (l : List (Nat × DCAction)) : List (Nat × DCAction) :=
  (c, a) :: removeCb c l

/-- `AMPServerProtocol.wait_for_disconnect`: register a callback to run when
this connection (`conn`) is lost. -/
def wait_for_disconnect (conn : Nat) (act : DCAction) (st : AmpState) : AmpState :=
  { st with disconnect_callbacks := setCb conn act st.disconnect_callbacks }

/-- Python `str()` of an `int`-or-`None` value, as used by `.format`. -/
def pyStrOptNat : Option Nat → String
  | none => "None"
  | some n => toString n

/-- `AMPServerProtocol.start_server`: launch the Server via `Popen`.  On a
launch exception: clear `portal.server_process_id`, `logger.log_trace()`,
return `0`.  On success: forward the early stdout to `logger.log_server`,
store the pid and the launch command, return the pid.  The `try/except`
means the call always returns normally (total function, no `Except` in the
result). -/
def start_server (spawn : List String → Except String Nat)
    (server_twistd_cmd : List String) (st : AmpState) :
    AmpState × Nat × List Effect :=
  match spawn server_twistd_cmd with
  | .error _ =>
      ({ st with server_process_id := none }, 0, [Effect.log_trace])
  | .ok pid =>
      ({ st with server_process_id := some pid, server_twistd_cmd := server_twistd_cmd },
       pid, [Effect.spawned server_twistd_cmd pid, Effect.log_server])

/-- `AMPServerProtocol.stop_server`: send the matching admin notice to the
Server over the existing connection. -/
def stop_server (mode : String) : List Effect :=
  if mode = "reload" then [Effect.admin_portal2server SRELOAD]
  else if mode = "reset" then [Effect.admin_portal2server SRESET]
  else if mode = "shutdown" then [Effect.admin_portal2server SSHUTD]
  else []

/-- Run a stored disconnect callback (`callback(*args, **kwargs)`), which may
itself mutate state, produce effects, or raise. -/
def runAction (spawn : List String → Except String Nat) :
    DCAction → AmpState → Except String (AmpState × List Effect)
  | DCAction.start_server_act cmd, st =>
      let r := start_server spawn cmd st
      .ok (r.1, r.2.2)
  | DCAction.portal_shutdown_act restart, st =>
      .ok (st, [Effect.portal_shutdown restart])
  | DCAction.raw_act none, st => .ok (st, [])
  | DCAction.raw_act (some e), _ => .error e

/-- `AMPServerProtocol.connectionLost`: pop this connection's entry from
`disconnect_callbacks` (with a `(None, None, None)` default), and if a
callback was registered, invoke it inside `try/except`, logging (never
propagating) any exception it raises. -/
def connectionLost (spawn : List String → Except String Nat)
    (conn : Nat) (st : AmpState) : AmpState × List Effect :=
  let entry := lookupCb conn st.disconnect_callbacks
  let st' := { st with disconnect_callbacks := removeCb conn st.disconnect_callbacks }
  match entry with
  | none => (st', [])
  | some act =>
      match runAction spawn act st' with
      | .ok (st'', effs) => (st'', effs)
      | .error _ => (st', [Effect.log_trace])

/-- The `server_connected` expression evaluated at the top of both receive
handlers: `self.factory.server_connection and
self.factory.server_connection.transport.connected` (the transport-open
flags are supplied by the `connected` oracle). -/
def server_connected (connected : Nat → Bool) (st : AmpState) : Bool :=
  match st.server_connection with
  | none => false
  | some c => connected c

/-- The shape of the value a launcher-channel responder returns:
`_retval(success, txt)` produces `{"result": amp.dumps((success, txt))}`;
the fallback at the end of the handler produces the bare `{"result": ""}`. -/
inductive LauncherResult where
  | retval (success : Bool) (txt : String)
  | empty_result
  deriving DecidableEq, Repr

/-- `AMPServerProtocol.portal_receive_launcher2portal`: the operator-channel
(launcher) responder.  `arguments` is the already-unpickled payload
(`amp.loads(arguments)`), i.e. the launch command for the operations that
use it.  The result is the state after the handler ran, the effects it
performed up to the point it returned or raised, and either the returned
result dict or the Python exception that escaped. -/
def portal_receive_launcher2portal (connected : Nat → Bool)
    (spawn : List String → Except String Nat)
    (operation : Nat) (arguments : List String) (st : AmpState) :
    AmpState × List Effect × Except PyErr LauncherResult :=
  let sc := server_connected connected st
  let server_pid := st.server_process_id
  let logs : List Effect :=
    [Effect.log_msg ("AMP SERVER operation == " ++ toString operation ++ " received"),
     Effect.log_msg ("AMP SERVER arguments: " ++ String.intercalate " " arguments)]
  if operation = SSTART then
    -- first, check if server is already running
    if sc then
      (st, logs,
       .ok (.retval false ("Server already running at PID=" ++ pyStrOptNat server_pid)))
    else
      let r := start_server spawn arguments st
      (r.1, logs ++ r.2.2,
       .ok (.retval true ("Server started with PID " ++ toString r.2.1 ++ ".")))
  else if operation = SRELOAD then
    if sc then
      -- don't restart until the server connection goes down
      (st, logs ++ stop_server "reload", .ok .empty_result)
    else
      let r := start_server spawn arguments st
      (r.1, logs ++ r.2.2,
       .ok (.retval true ("Server started with PID " ++ toString r.2.1 ++ ".")))
  else if operation = SRESET then
    if sc then
      -- `return _retval(True, "Server restarted with PID {spid}.".format(spid=spid))`:
      -- the local `spid` was never assigned on this path, so evaluating the
      -- format argument raises UnboundLocalError after the notice was sent.
      (st, logs ++ stop_server "reset", .error (PyErr.unbound_local "spid"))
    else
      let r := start_server spawn arguments st
      (r.1, logs ++ r.2.2,
       .ok (.retval true ("Server started with PID " ++ toString r.2.1 ++ ".")))
  else if operation = SSHUTD then
    if sc then
      (st, logs ++ stop_server "shutdown", .ok (.retval true "Server stopped."))
    else
      (st, logs, .ok (.retval false "Server not running"))
  else if operation = PSHUTD then
    if sc then
      (st, logs ++ stop_server "shutdown", .ok (.retval true "Server stopped."))
    else
      -- `self.factory.portal.shutdown(restart=False)` then the fallback return
      (st, logs ++ [Effect.portal_shutdown false], .ok .empty_result)
  else
    (st, logs, .error (PyErr.unrecognized operation))

/-- `AMPServerProtocol.portal_receive_adminserver2portal`: the Server-facing
admin responder.  `self` is the connection the message arrived on; the
session-registry interactions are recorded as `sessions_call` effects since
the registry is an external collaborator.  The handler stores `self` as
`factory.server_connection` before dispatching on the operation. -/
def portal_receive_adminserver2portal (self : Nat) (operation : Nat) (st0 : AmpState) :
    AmpState × List Effect × Except PyErr Unit :=
  -- store this transport since we know it comes from the Server
  let st := { st0 with server_connection := some self }
  if operation = SLOGIN then
    (st, [Effect.sessions_call "server_logged_in"], .ok ())
  else if operation = SDISCONN then
    (st, [Effect.sessions_call "server_disconnect"], .ok ())
  else if operation = SDISCONNALL then
    (st, [Effect.sessions_call "server_disconnect_all"], .ok ())
  else if operation = SRELOAD then
    -- `self.factory.server_connection.wait_for_disconnect(self.start_server,
    --  self.factory.portal.server_twistd_cmd)`; server_connection was just
    -- set to `self` on the line above.
    (wait_for_disconnect self (DCAction.start_server_act st.server_twistd_cmd) st,
     stop_server "reload", .ok ())
  else if operation = SRESET then
    (wait_for_disconnect self (DCAction.start_server_act st.server_twistd_cmd) st,
     stop_server "reset", .ok ())
  else if operation = SSHUTD then
    (st, stop_server "shutdown", .ok ())
  else if operation = PSHUTD then
    (wait_for_disconnect self (DCAction.portal_shutdown_act false) st,
     stop_server "shutdown", .ok ())
  else if operation = PSYNC then
    (st, [Effect.admin_portal2server PSYNC, Effect.sessions_call "at_server_connection"],
     .ok ())
  else if operation = SSYNC then
    ({ st with server_restart_mode := true },
     [Effect.sessions_call "server_session_sync"], .ok ())
  else if operation = SCONN then
    (st, [Effect.sessions_call "server_connect"], .ok ())
  else
    (st, [], .error (PyErr.unrecognized operation))

/-- A reply as the operator tool sees it, together with whether the
connection is still open afterwards. -/
inductive WireReply where
  | structured (success : Bool) (txt : String)
  | raw_empty
  deriving DecidableEq, Repr

/-- Modelled from the spec: the Call Dispatcher boundary of
`evennia/server/portal/amp.py` (that file is not among the sources here;
only its behaviour is specified).  Per the spec's Call Dispatcher contract,
a handler that raises is caught at the dispatcher boundary: the error is
logged and surfaced to the caller as an explicit failure reply rather than
closing the connection.  The returned `Bool` is whether the connection is
still open after the exchange. -/
def dispatch_launcher_command (connected : Nat → Bool)
    (spawn : List String → Except String Nat)
    (operation : Nat) (arguments : List String) (st : AmpState) :
    AmpState × List Effect × WireReply × Bool :=
  match portal_receive_launcher2portal connected spawn operation arguments st with
  | (st', effs, .ok (.retval success txt)) => (st', effs, .structured success txt, true)
  | (st', effs, .ok .empty_result) => (st', effs, .raw_empty, true)
  | (st', effs, .error (PyErr.unbound_local n)) =>
      (st', effs ++ [Effect.log_trace],
       .structured false ("local variable referenced before assignment: " ++ n), true)
  | (st', effs, .error (PyErr.unrecognized op)) =>
      (st', effs ++ [Effect.log_trace],
       .structured false ("operation " ++ toString op ++ " not recognized."), true)

/-- Test fixture: Server connected on connection `7` at pid `100`, cached
launch command `["run-core"]`, no registered disconnect callbacks. -/
def stConn : AmpState := ⟨some 7, [], some 100, ["run-core"], false⟩

/-- Test fixture: no Server connection, nothing cached. -/
def stDisc : AmpState := ⟨none, [], none, [], false⟩

/-- Spawn oracle: every launch succeeds, with pid 101. -/
def okSpawn : List String → Except String Nat := fun _ => .ok 101

/-- Spawn oracle: every launch raises an OSError. -/
def failSpawn : List String → Except String Nat := fun _ => .error "OSError"

/-- Transport oracle: every transport is open. -/
def allOpen : Nat → Bool := fun _ => true

/-- Transport oracle: every transport is closed. -/
def noneOpen : Nat → Bool := fun _ => false

/-! Helper lemmas about the `disconnect_callbacks` dict. -/

theorem removeCb_removeCb (c : Nat) (l : List (Nat × DCAction)) :
    removeCb c (removeCb c l) = removeCb c l := by
  induction l with
  | nil => rfl
  | cons p rest ih =>
      obtain ⟨k, a⟩ := p
      by_cases h : k = c
      · simp [removeCb, h, ih]
      · simp [removeCb, h, ih]

theorem lookupCb_removeCb_self (c : Nat) (l : List (Nat × DCAction)) :
    lookupCb c (removeCb c l) = none := by
  induction l with
  | nil => rfl
  | cons p rest ih =>
      obtain ⟨k, a⟩ := p
      by_cases h : k = c
      · simp [removeCb, h, ih]
      · simp [removeCb, lookupCb, h, ih]

theorem removeCb_of_lookupCb_none (c : Nat) (l : List (Nat × DCAction))
    (h : lookupCb c l = none) : removeCb c l = l := by
  induction l with
  | nil => rfl
  | cons p rest ih =>
      obtain ⟨k, a⟩ := p
      by_cases hk : k = c
      · simp [lookupCb, hk] at h
      · simp [lookupCb, hk] at h
        simp [removeCb, hk, ih h]

theorem runAction_ok_callbacks (spawn : List String → Except String Nat)
    (act : DCAction) (st st2 : AmpState) (effs : List Effect)
    (h : runAction spawn act st = .ok (st2, effs)) :
    st2.disconnect_callbacks = st.disconnect_callbacks := by
  cases act with
  | start_server_act cmd =>
      simp [runAction] at h
      cases hs : spawn cmd with
      | error e => simp [start_server, hs] at h; simp [← h.1]
      | ok pid => simp [start_server, hs] at h; simp [← h.1]
  | portal_shutdown_act restart =>
      simp [runAction] at h
      simp [← h.1]
  | raw_act raises =>
      cases raises with
      | none => simp [runAction] at h; simp [← h.1]
      | some e => simp [runAction] at h

theorem connectionLost_fst_callbacks (spawn : List String → Except String Nat)
    (conn : Nat) (st : AmpState) :
    (connectionLost spawn conn st).1.disconnect_callbacks
      = removeCb conn st.disconnect_callbacks := by
  unfold connectionLost
  cases he : lookupCb conn st.disconnect_callbacks with
  | none => simp
  | some act =>
      simp only
      cases hr : runAction spawn act
          { st with disconnect_callbacks := removeCb conn st.disconnect_callbacks } with
      | error e => simp [hr]
      | ok r =>
          obtain ⟨st2, effs⟩ := r
          simp [hr]
          have := runAction_ok_callbacks spawn act _ st2 effs hr
          simp at this
          rw [this]

theorem connectionLost_of_lookupCb_none (spawn : List String → Except String Nat)
    (conn : Nat) (st : AmpState)
    (h : lookupCb conn st.disconnect_callbacks = none) :
    connectionLost spawn conn st = (st, []) := by
  unfold connectionLost
  rw [h, removeCb_of_lookupCb_none conn st.disconnect_callbacks h]

/-- C7: a disconnect action fires at most once per connection close.
Registering a second action for the same connection overwrites the first
(so firing from the doubly-registered state is literally firing from the
state where only the last registration happened); after the connection is
lost once, the entry is gone; and a second connection-lost notification for
the same connection is a no-op (state unchanged, no effects). -/
theorem connectionLost_at_most_once (spawn : List String → Except String Nat)
    (conn : Nat) (act_old act_new : DCAction) (st : AmpState) :
    wait_for_disconnect conn act_new (wait_for_disconnect conn act_old st)
      = wait_for_disconnect conn act_new st
  ∧ lookupCb conn
      ((connectionLost spawn conn (wait_for_disconnect conn act_new st)).1.disconnect_callbacks)
      = none
  ∧ connectionLost spawn conn
      ((connectionLost spawn conn (wait_for_disconnect conn act_new st)).1)
      = ((connectionLost spawn conn (wait_for_disconnect conn act_new st)).1, []) := by
  refine ⟨?_, ?_, ?_⟩
  · simp [wait_for_disconnect, setCb, removeCb, removeCb_removeCb]
  · rw [connectionLost_fst_callbacks, lookupCb_removeCb_self]
  · exact connectionLost_of_lookupCb_none spawn conn _
      (by rw [connectionLost_fst_callbacks, lookupCb_removeCb_self])

/-- C8: when `Popen` raises, `start_server` clears the stored process
identifier, leaves the stored start command at its prior value, logs the
failure, and returns normally (with the sentinel pid `0`) instead of
raising. -/
theorem start_server_spawn_failure (spawn : List String → Except String Nat)
    (cmd : List String) (st : AmpState) (e : String)
    (h : spawn cmd = .error e) :
    start_server spawn cmd st
      = ({ st with server_process_id := none }, 0, [Effect.log_trace])
  ∧ (start_server spawn cmd st).1.server_twistd_cmd = st.server_twistd_cmd := by
  constructor
  · simp [start_server, h]
  · simp [start_server, h]

/-- Closed witness for C8's theorem at a concrete failing spawn. -/
theorem start_server_spawn_failure_witness :
    start_server (fun _ => .error "boom") ["run-core"]
        ⟨some 7, [], some 100, ["run-core"], false⟩
      = (⟨some 7, [], none, ["run-core"], false⟩, 0, [Effect.log_trace]) :=
  (start_server_spawn_failure (fun _ => .error "boom") ["run-core"]
    ⟨some 7, [], some 100, ["run-core"], false⟩ "boom" rfl).1

/-- C9: an exception raised by the registered disconnect action is caught
and logged inside `connectionLost` and never propagates: the handler still
returns normally with the entry removed and a `log_trace` effect; and for
every possible registered action the entry removal (the teardown step)
completes. -/
theorem connectionLost_catches_action_errors
    (spawn : List String → Except String Nat) (conn : Nat) (st : AmpState)
    (e : String)
    (h : lookupCb conn st.disconnect_callbacks = some (DCAction.raw_act (some e))) :
    connectionLost spawn conn st
      = ({ st with disconnect_callbacks := removeCb conn st.disconnect_callbacks },
         [Effect.log_trace])
  ∧ ∀ st2 : AmpState,
      (connectionLost spawn conn st2).1.disconnect_callbacks
        = removeCb conn st2.disconnect_callbacks := by
  constructor
  · unfold connectionLost
    rw [h]
    simp [runAction]
  · exact fun st2 => connectionLost_fst_callbacks spawn conn st2

/-- Closed witness for C9's theorem: a registered callback that raises is
swallowed, the entry is removed, the trace is logged. -/
theorem connectionLost_catches_action_errors_witness :
    connectionLost (fun _ => .ok 101) 7
        ⟨some 7, [(7, DCAction.raw_act (some "boom"))], some 100, ["run-core"], false⟩
      = (⟨some 7, [], some 100, ["run-core"], false⟩, [Effect.log_trace]) :=
  (connectionLost_catches_action_errors (fun _ => .ok 101) 7
    ⟨some 7, [(7, DCAction.raw_act (some "boom"))], some 100, ["run-core"], false⟩
    "boom" rfl).1

set_option maxHeartbeats 1000000 in
/-- C10: every admin message arriving on the Server-facing responder first
stores the connection it arrived on as `factory.server_connection`
(last-writer-wins), whatever the operation code is — including ones outside
the recognized enumeration. -/
theorem adminserver2portal_sets_server_connection (self op : Nat) (st : AmpState) :
    (portal_receive_adminserver2portal self op st).1.server_connection = some self := by
  simp only [portal_receive_adminserver2portal]
  split_ifs <;> rfl

/-- C1 (code evaluated at the failing input): `reload` while the Server is
connected (pid 100, cached command `["run-core"]`) only sends the reload
notice and returns the bare fallback reply; it registers no disconnect
callback — `disconnect_callbacks` stays empty — so when the Server
connection then closes, `connectionLost` fires nothing: no re-spawn with the
cached command happens and the state is untouched. -/
theorem reload_while_connected_registers_nothing :
    portal_receive_launcher2portal allOpen okSpawn SRELOAD ["run-core"] stConn
      = (stConn,
         [Effect.log_msg "AMP SERVER operation == 14 received",
          Effect.log_msg "AMP SERVER arguments: run-core",
          Effect.admin_portal2server SRELOAD],
         .ok .empty_result)
  ∧ connectionLost okSpawn 7 stConn = (stConn, []) := by
  exact ⟨rfl, rfl⟩

/-- C2 (code evaluated at the failing input): `shutdown-all` while the
Server is connected only sends the server-shutdown notice and returns
"Server stopped."; no `portal_shutdown` effect occurs and no disconnect
callback is registered, so after the Server connection closes nothing shuts
the Gateway down. -/
theorem shutdown_all_while_connected_never_stops_portal :
    portal_receive_launcher2portal allOpen okSpawn PSHUTD [] stConn
      = (stConn,
         [Effect.log_msg "AMP SERVER operation == 16 received",
          Effect.log_msg "AMP SERVER arguments: ",
          Effect.admin_portal2server SSHUTD],
         .ok (.retval true "Server stopped."))
  ∧ connectionLost okSpawn 7 stConn = (stConn, []) := by
  exact ⟨rfl, rfl⟩

/-- C3 (code evaluated at the failing input): `reset` while the Server is
connected sends the reset notice and then raises `UnboundLocalError` on the
local `spid` while building the success reply, instead of returning it. -/
theorem reset_while_connected_raises_unbound_local :
    portal_receive_launcher2portal allOpen okSpawn SRESET [] stConn
      = (stConn,
         [Effect.log_msg "AMP SERVER operation == 19 received",
          Effect.log_msg "AMP SERVER arguments: ",
          Effect.admin_portal2server SRESET],
         .error (PyErr.unbound_local "spid")) := by
  rfl

/-- C4 counterexample: `start` with the Server not connected and a failing
`Popen` produces no `spawned` effect at all, yet the handler replies
`success=true` with "Server started with PID 0." — a success reply for a
spawn that did not happen, refuting the claim that such a reply is a
failure with a reason. -/
theorem start_spawn_failure_success_reply :
    portal_receive_launcher2portal noneOpen failSpawn SSTART ["run-core"] stDisc
      = (stDisc,
         [Effect.log_msg "AMP SERVER operation == 15 received",
          Effect.log_msg "AMP SERVER arguments: run-core",
          Effect.log_trace],
         .ok (.retval true "Server started with PID 0.")) := by
  rfl

/-- C4 as amended: when `start` arrives with the Server not connected and
the subprocess launch fails, the stored process identifier is cleared, no
`spawned` effect occurs, and the handler returns a reply with success `true`
whose message reports the sentinel pid `0` returned by `start_server` (no
failure reply is produced and no real pid is reported). -/
theorem start_spawn_failure_reply (connected : Nat → Bool)
    (spawn : List String → Except String Nat) (args : List String)
    (st : AmpState) (e : String)
    (h1 : server_connected connected st = false) (h2 : spawn args = .error e) :
    portal_receive_launcher2portal connected spawn SSTART args st
      = ({ st with server_process_id := none },
         [Effect.log_msg ("AMP SERVER operation == " ++ toString SSTART ++ " received"),
          Effect.log_msg ("AMP SERVER arguments: " ++ String.intercalate " " args),
          Effect.log_trace],
         .ok (.retval true ("Server started with PID " ++ toString (0 : Nat) ++ "."))) := by
  simp only [portal_receive_launcher2portal, h1, start_server, h2]
  simp

/-- Closed witness for C4's amended theorem: prior cached command kept, pid
cleared, success reply with the sentinel pid 0. -/
theorem start_spawn_failure_reply_witness :
    portal_receive_launcher2portal noneOpen failSpawn SSTART ["run-core"]
        ⟨none, [], some 55, ["old-cmd"], false⟩
      = (⟨none, [], none, ["old-cmd"], false⟩,
         [Effect.log_msg "AMP SERVER operation == 15 received",
          Effect.log_msg "AMP SERVER arguments: run-core",
          Effect.log_trace],
         .ok (.retval true "Server started with PID 0.")) :=
  start_spawn_failure_reply noneOpen failSpawn ["run-core"]
    ⟨none, [], some 55, ["old-cmd"], false⟩ "OSError" rfl rfl

/-- C5: at the dispatcher boundary (modelled from the spec, since the AMP
dispatcher module is not among the sources), an operation code outside the
recognized enumeration yields a structured `success=false` reply to the
operator — the handler's raised exception is caught, not propagated — the
connection stays open, and the state is unchanged, so a subsequent valid
command is processed as if the bad one had never arrived. -/
theorem dispatch_unrecognized_op (connected : Nat → Bool)
    (spawn : List String → Except String Nat) (op : Nat) (args : List String)
    (st : AmpState)
    (h1 : op ≠ SSTART) (h2 : op ≠ SRELOAD) (h3 : op ≠ SRESET)
    (h4 : op ≠ SSHUTD) (h5 : op ≠ PSHUTD) :
    dispatch_launcher_command connected spawn op args st
      = (st,
         [Effect.log_msg ("AMP SERVER operation == " ++ toString op ++ " received"),
          Effect.log_msg ("AMP SERVER arguments: " ++ String.intercalate " " args),
          Effect.log_trace],
         WireReply.structured false ("operation " ++ toString op ++ " not recognized."),
         true) := by
  simp only [dispatch_launcher_command, portal_receive_launcher2portal]
  rw [if_neg h1, if_neg h2, if_neg h3, if_neg h4, if_neg h5]
  rfl

/-- Closed witness for C5's theorem at operation code 99. -/
theorem dispatch_unrecognized_op_witness :
    dispatch_launcher_command allOpen okSpawn 99 [] stConn
      = (stConn,
         [Effect.log_msg "AMP SERVER operation == 99 received",
          Effect.log_msg "AMP SERVER arguments: ",
          Effect.log_trace],
         WireReply.structured false "operation 99 not recognized.",
         true) :=
  dispatch_unrecognized_op allOpen okSpawn 99 [] stConn
    (by decide) (by decide) (by decide) (by decide) (by decide)

/-- C6: `start` while the Server is connected spawns nothing (the effect
trace holds only the two entry log lines), leaves the state unchanged, and
replies `success=false` with a message naming the already-running pid. -/
theorem start_while_connected_no_spawn (connected : Nat → Bool)
    (spawn : List String → Except String Nat) (args : List String)
    (st : AmpState) (c : Nat)
    (h1 : st.server_connection = some c) (h2 : connected c = true) :
    portal_receive_launcher2portal connected spawn SSTART args st
      = (st,
         [Effect.log_msg ("AMP SERVER operation == " ++ toString SSTART ++ " received"),
          Effect.log_msg ("AMP SERVER arguments: " ++ String.intercalate " " args)],
         .ok (.retval false ("Server already running at PID="
            ++ pyStrOptNat st.server_process_id))) := by
  have hsc : server_connected connected st = true := by
    simp [server_connected, h1, h2]
  simp only [portal_receive_launcher2portal, hsc]
  simp

/-- Closed witness for C6's theorem: Server connected at pid 100. -/
theorem start_while_connected_no_spawn_witness :
    portal_receive_launcher2portal allOpen okSpawn SSTART ["run-core"] stConn
      = (stConn,
         [Effect.log_msg "AMP SERVER operation == 15 received",
          Effect.log_msg "AMP SERVER arguments: run-core"],
         .ok (.retval false "Server already running at PID=100")) :=
  start_while_connected_no_spawn allOpen okSpawn ["run-core"] stConn 7 rfl rfl

end AmpServer
